import Mathlib

/-!
Shallow embedding of the tgres receiver director pipeline
(src/unnamed/part_000, package `receiver`).

Go channels and logging are modelled by returning the effects explicitly:
each embedded function returns, besides its result, the list of messages it
sent, the log lines it emitted, the stat counters it reported and the flush
calls it made.  Machine integers of the source (`Hops`, counts) are modelled
as `Int`/`Nat`; float64 values are modelled by `GoFloat`, which records only
whether the value is NaN, because the source inspects a point's value solely
through `math.IsNaN` and otherwise treats it as opaque.
-/

namespace TgresReceiver

/-- Model of a Go float64 as seen by this code: either NaN or an opaque
non-NaN numeric value (the source only ever applies `math.IsNaN` to it). -/
inductive GoFloat where
  | nan : GoFloat
  | num : Int → GoFloat
deriving DecidableEq, Repr

/-- `math.IsNaN` on the modelled float. -/
def GoFloat.isNaN : GoFloat → Bool
  | .nan => true
  | .num _ => false

/-- `incomingDP`: an incoming data point {identifier, value, hop count}. -/
structure IncomingDP where
  ident : String
  value : GoFloat
  hops : Int
deriving DecidableEq, Repr

/-- A cluster node as consumed by the director: `Name()`, `SanitizedAddr()`,
`Ready()`. -/
structure Node where
  name : String
  addr : String
  ready : Bool
deriving DecidableEq, Repr

/-- `cluster.Msg` as produced by `cluster.NewMsg(node, dp)`: an envelope
addressed to a node carrying an encoded data point. -/
structure Msg where
  node : Node
  dp : IncomingDP
deriving DecidableEq, Repr

/-- `cachedDs`: the in-memory handle of a series.  `id = 0` is the sentinel
for "not yet loaded/created"; `incoming` is the pending-points buffer;
`pointCount` is the accumulated point count reported by `PointCount()`;
`hasSpec` models `spec != nil`; `created` models `Created()`; `rrasCleared`
records that `ClearRRAs` has been invoked on the handle. -/
structure CachedDs where
  id : Nat
  ident : String
  incoming : List IncomingDP
  pointCount : Nat
  hasSpec : Bool
  created : Bool
  rrasCleared : Bool
deriving DecidableEq, Repr

/-- Modelled from the spec: `cachedDs.processIncoming` is not under src/.
§4.6 of the spec: the local branch must "apply every buffered point to the
persisted record (order-preserving ...) and clear the buffer".  We model it
as applying all pending points (raising the accumulated point count by the
number applied), clearing the buffer, and returning the number applied
together with no error. -/
def CachedDs.processIncoming (cds : CachedDs) :
    CachedDs × Nat × Option String :=
  ({ cds with incoming := [], pointCount := cds.pointCount + cds.incoming.length },
   cds.incoming.length, none)

/-- Modelled from the spec: `ClearRRAs(true)` is not under src/.  §4.6 of the
spec: "forcibly clear any in-memory aggregation state for that handle".  We
model it as zeroing the accumulated point count and marking the RRAs
cleared. -/
def CachedDs.clearRRAs (cds : CachedDs) : CachedDs :=
  { cds with pointCount := 0, rrasCleared := true }

/-- Modelled from the spec: `cachedDs.appendIncoming` is not under src/.
§4.6 of the spec: "Append the point to the handle's pending buffer." -/
def CachedDs.appendIncoming (cds : CachedDs) (dp : IncomingDP) : CachedDs :=
  { cds with incoming := cds.incoming ++ [dp] }

/-- A received cluster message as seen after `m.Decode(&dp)`: either the
decode fails or it yields a data point. -/
inductive RcvMsg where
  | decodeErr : RcvMsg
  | ok : IncomingDP → RcvMsg
deriving DecidableEq, Repr

/-- `maxHops` of `directorincomingDPMessages`. -/
def maxHops : Int := 2

/-- `directorincomingDPMessages`: drains the receive channel; a decode
failure is logged and skipped; a point whose hop count exceeds `maxHops` is
logged and skipped; every other point is delivered to the director channel.
Returns (points delivered to `dpCh`, log lines), in order. -/
def directorincomingDPMessages : List RcvMsg → List IncomingDP × List String
  | [] => ([], [])
  | m :: rest =>
    match m with
    | .decodeErr =>
      let r := directorincomingDPMessages rest
      (r.1, "director: msg <- rcv data point decoding FAILED, ignoring this data point." :: r.2)
    | .ok dp =>
      if maxHops < dp.hops then
        let r := directorincomingDPMessages rest
        (r.1, "director: dropping data point, max hops (2) reached" :: r.2)
      else
        let r := directorincomingDPMessages rest
        (dp :: r.1, r.2)

/-- Result of `directorForwardDPToNode`: the (possibly hop-incremented) data
point, the message placed on the send channel if any, and the returned
error if any. -/
structure ForwardResult where
  dp : IncomingDP
  sent : Option Msg
  err : Option String
deriving DecidableEq, Repr

/-- `directorForwardDPToNode`: forwards a point to a node only when its hop
count is 0 (we do not forward more than once); if the node is ready the hop
count is incremented and the message sent, otherwise an error is returned. -/
def directorForwardDPToNode (dp : IncomingDP) (node : Node) : ForwardResult :=
  if dp.hops = 0 then
    if node.ready then
      let dp' : IncomingDP := { dp with hops := dp.hops + 1 }
      { dp := dp', sent := some { node := node, dp := dp' }, err := none }
    else
      { dp := dp, sent := none, err := some "directorForwardDPToNode: Node is not ready" }
  else
    { dp := dp, sent := none, err := none }

/-- A call to `dsFlusherBlocking.flushDs(ds, block)`: the flushed data
source's identifier and the `block` flag the call was made with. -/
structure FlushCall where
  ident : String
  blocking : Bool
deriving DecidableEq, Repr

/-- Result of `directorProcessDataPoint`: the updated handle, the returned
count, the flush calls made and the log lines emitted. -/
structure ProcessResult where
  cds : CachedDs
  cnt : Nat
  flushes : List FlushCall
  logs : List String
deriving DecidableEq, Repr

/-- `directorProcessDataPoint`: applies the handle's buffered points via
`processIncoming` (logging any error), and if the accumulated point count is
positive afterwards calls `dsf.flushDs(cds.DbDataSourcer, false)`. -/
def directorProcessDataPoint (cds : CachedDs) : ProcessResult :=
  let r := cds.processIncoming
  let logs : List String :=
    match r.2.2 with
    | some e => ["directorProcessDataPoint [" ++ cds.ident ++ "] error: " ++ e]
    | none => []
  let flushes : List FlushCall :=
    if 0 < r.1.pointCount then [{ ident := r.1.ident, blocking := false }] else []
  { cds := r.1, cnt := r.2.1, flushes := flushes, logs := logs }

/-- The cluster interface consumed by `directorProcessOrForward`:
`NodesForDistDatum` for the handle at hand, and `LocalNode()`. -/
structure Clusterer where
  nodesForDistDatum : List Node
  localNode : Node
deriving DecidableEq, Repr

/-- Running state of `directorProcessOrForward`: the named results
(accepted, forwarded, dest), the handle being mutated, and the effects. -/
structure POFState where
  accepted : Nat
  forwarded : Nat
  dest : String
  cds : CachedDs
  sent : List Msg
  logs : List String
  flushes : List FlushCall
deriving DecidableEq, Repr

/-- The inner `for _, dp := range cds.incoming` loop of the remote branch of
`directorProcessOrForward`: forwards each point to `node`, logging and
skipping on error, incrementing `forwarded` otherwise.  Returns (messages
sent, log lines, number counted as forwarded). -/
def forwardLoop (node : Node) : List IncomingDP → List Msg × List String × Nat
  | [] => ([], [], 0)
  | dp :: rest =>
    let f := directorForwardDPToNode dp node
    let r := forwardLoop node rest
    match f.err with
    | some e =>
      (r.1, ("director: Error forwarding a data point: " ++ e) :: r.2.1, r.2.2)
    | none => (f.sent.toList ++ r.1, r.2.1, r.2.2 + 1)

/-- The warning logged by `directorProcessOrForward` when clearing a handle
whose accumulated point count is positive. -/
def clearingWarning : String := "director: WARNING: Clearing DS with PointCount > 0"

/-- The body of the `for _, node := range clstr.NodesForDistDatum(...)` loop
of `directorProcessOrForward`: the local node processes the buffered points
locally; a remote node gets every buffered point forwarded (errors logged
and skipped), then the buffer is discarded and the RRAs cleared, with a
warning when the accumulated point count was positive. -/
def pofStep (localN : Node) (st : POFState) (node : Node) : POFState :=
  if node.name = localN.name then
    let r := directorProcessDataPoint st.cds
    { st with accepted := r.cnt, cds := r.cds,
              logs := st.logs ++ r.logs, flushes := st.flushes ++ r.flushes }
  else
    let f := forwardLoop node st.cds.incoming
    let cds1 : CachedDs := { st.cds with incoming := [] }
    let warn : List String := if 0 < cds1.pointCount then [clearingWarning] else []
    { st with dest := node.addr,
              forwarded := st.forwarded + f.2.2,
              cds := cds1.clearRRAs,
              sent := st.sent ++ f.1,
              logs := st.logs ++ f.2.1 ++ warn }

/-- `directorProcessOrForward`: with no cluster, process locally; otherwise
run the node loop over `NodesForDistDatum`. -/
def directorProcessOrForward (cds : CachedDs) (clstr : Option Clusterer) : POFState :=
  match clstr with
  | none =>
    let r := directorProcessDataPoint cds
    { accepted := r.cnt, forwarded := 0, dest := "", cds := r.cds,
      sent := [], logs := r.logs, flushes := r.flushes }
  | some c =>
    List.foldl (pofStep c.localNode)
      { accepted := 0, forwarded := 0, dest := "", cds := cds,
        sent := [], logs := [], flushes := [] }
      c.nodesForDistDatum

/-- Effects of `directorProcessIncomingDP`: stat counters reported (name,
amount), the handles submitted to the loader channel, the messages sent on
the cluster send channel, log lines, flush calls, and the updated handle in
the cache if any. -/
structure IncomingResult where
  stats : List (String × Nat)
  loaderSends : List CachedDs
  sent : List Msg
  logs : List String
  flushes : List FlushCall
  cdsAfter : Option CachedDs
deriving DecidableEq, Repr

/-- `directorProcessIncomingDP`: counts the point in `datapoints.total`;
drops NaN values silently; resolves the handle through
`getByIdentOrCreateEmpty` and counts unroutable points as dropped; appends
the point to the handle's buffer; submits not-yet-loaded handles to the
loader; otherwise runs the local-or-forward decision and reports the
forwarded counters, or else the accepted counter. -/
def directorProcessIncomingDP (dp : IncomingDP)
    (getByIdentOrCreateEmpty : String → Option CachedDs)
    (clstr : Option Clusterer) (debug : Bool) : IncomingResult :=
  let total : List (String × Nat) := [("receiver.datapoints.total", 1)]
  if dp.value.isNaN then
    { stats := total, loaderSends := [], sent := [], logs := [], flushes := [],
      cdsAfter := none }
  else
    match getByIdentOrCreateEmpty dp.ident with
    | none =>
      { stats := total ++ [("receiver.datapoints.dropped", 1)],
        loaderSends := [], sent := [],
        logs := if debug then ["director: No spec matched ident, ignoring data point"] else [],
        flushes := [], cdsAfter := none }
    | some cds0 =>
      let cds := cds0.appendIncoming dp
      if cds.id = 0 then
        { stats := total, loaderSends := [cds], sent := [], logs := [],
          flushes := [], cdsAfter := some cds }
      else
        let r := directorProcessOrForward cds clstr
        let fstats : List (String × Nat) :=
          if 0 < r.forwarded then
            [("receiver.forwarded_to." ++ r.dest, r.forwarded),
             ("receiver.datapoints.forwarded", r.forwarded)]
          else if 0 < r.accepted then
            [("receiver.datapoints.accepted", r.accepted)]
          else []
        { stats := total ++ fstats, loaderSends := [], sent := r.sent,
          logs := r.logs, flushes := r.flushes, cdsAfter := some r.cds }

/-- Result of `dsc.fetchOrCreateByIdent(cds)`: either a storage error or the
materialized handle. -/
inductive FetchResult where
  | err : String → FetchResult
  | ok : CachedDs → FetchResult
deriving DecidableEq, Repr

/-- Effects of the loader loop: the handles sent downstream on the director
channel, the number of `receiver.created` events reported, the log lines,
and whether the director channel was closed on exit. -/
structure LoaderResult where
  outputs : List CachedDs
  createdEvents : Nat
  logs : List String
  closedDpCh : Bool
deriving DecidableEq, Repr

/-- The loader loop over the items received from its (relay-buffered) input
channel, with channel closure at the end of the list.  `fetch` models
`dsc.fetchOrCreateByIdent`, which is not under src/ — Modelled from the
spec: "Looks up the identifier in persistence; if absent, creates a new
persisted record; ... Fails with a storage error on I/O failure".  On a
fetch error the loader logs and continues with the next item; otherwise it
reports `receiver.created` when applicable and sends the handle downstream;
on closure it closes the director channel and exits. -/
def loaderRun (fetch : CachedDs → FetchResult) : List CachedDs → LoaderResult
  | [] =>
    { outputs := [], createdEvents := 0,
      logs := ["loader: channel closed, closing director channel and exiting..."],
      closedDpCh := true }
  | cds :: rest =>
    if cds.hasSpec then
      match fetch cds with
      | .err e =>
        let r := loaderRun fetch rest
        { r with logs := ("loader: database error: " ++ e) :: r.logs }
      | .ok cds' =>
        let r := loaderRun fetch rest
        { r with outputs := cds' :: r.outputs,
                 createdEvents := (if cds'.created then 1 else 0) + r.createdEvents }
    else
      let r := loaderRun fetch rest
      { r with outputs := cds :: r.outputs,
               createdEvents := (if cds.created then 1 else 0) + r.createdEvents }

/-- An item dequeued (with `ok = true`) from the director's processing
queue: an incoming point, a cached handle, the nil shutdown sentinel, or a
value of an unexpected type (carrying the `%T` type name). -/
inductive DpChItem where
  | dpItem : IncomingDP → DpChItem
  | cdsItem : CachedDs → DpChItem
  | nilItem : DpChItem
  | unknownItem : String → DpChItem
deriving DecidableEq, Repr

/-- Effects of one iteration of the director loop on a dequeued item. -/
structure DirectorStepResult where
  stats : List (String × Nat)
  loaderSends : List CachedDs
  sent : List Msg
  logs : List String
  flushes : List FlushCall
  cdsAfter : Option CachedDs
  closedLoaderCh : Bool
deriving DecidableEq, Repr

/-- One iteration of the `director` event loop on an item dequeued from
`dpOutCh` (with `ok = true`): a point goes to `directorProcessIncomingDP`; a
cached handle goes straight to the local-or-forward decision with the same
stat reporting; anything else — the nil close signal, or an unexpected type,
which is additionally logged — closes the loader channel. -/
def directorStep (x : DpChItem)
    (getByIdentOrCreateEmpty : String → Option CachedDs)
    (clstr : Option Clusterer) (debug : Bool) : DirectorStepResult :=
  match x with
  | .dpItem dp =>
    let r := directorProcessIncomingDP dp getByIdentOrCreateEmpty clstr debug
    { stats := r.stats, loaderSends := r.loaderSends, sent := r.sent,
      logs := r.logs, flushes := r.flushes, cdsAfter := r.cdsAfter,
      closedLoaderCh := false }
  | .cdsItem cds =>
    let r := directorProcessOrForward cds clstr
    let fstats : List (String × Nat) :=
      if 0 < r.forwarded then
        [("receiver.forwarded_to." ++ r.dest, r.forwarded),
         ("receiver.datapoints.forwarded", r.forwarded)]
      else if 0 < r.accepted then
        [("receiver.datapoints.accepted", r.accepted)]
      else []
    { stats := fstats, loaderSends := [], sent := r.sent, logs := r.logs,
      flushes := r.flushes, cdsAfter := some r.cds, closedLoaderCh := false }
  | .nilItem =>
    { stats := [], loaderSends := [], sent := [], logs := ["director: closing loader channel."],
      flushes := [], cdsAfter := none, closedLoaderCh := true }
  | .unknownItem t =>
    { stats := [], loaderSends := [], sent := [],
      logs := ["director(): unknown type: " ++ t, "director: closing loader channel."],
      flushes := [], cdsAfter := none, closedLoaderCh := true }

/-! ### Concrete values used by the witnesses and counterexamples -/

/-- A resolver under which no identifier matches a configured spec. -/
def resolveNone : String → Option CachedDs := fun _ => none

/-- A fresh (hop count 0, non-NaN) data point. -/
def dpW : IncomingDP := { ident := "host.cpu", value := GoFloat.num 3, hops := 0 }

/-- A data point that has already been forwarded once (hop count 1). -/
def dpH1 : IncomingDP := { ident := "host.mem", value := GoFloat.num 1, hops := 1 }

/-- A ready remote node. -/
def nodeReadyW : Node := { name := "remote1", addr := "10.0.0.2", ready := true }

/-- A remote node that is not ready. -/
def nodeNR : Node := { name := "remote1", addr := "10.0.0.2", ready := false }

/-- The local node. -/
def localW : Node := { name := "local0", addr := "10.0.0.1", ready := true }

/-- A loaded handle (id 1) with an empty buffer. -/
def cds0W : CachedDs :=
  { id := 1, ident := "host.cpu", incoming := [], pointCount := 0,
    hasSpec := false, created := false, rrasCleared := false }

/-- A resolver that returns `cds0W` for every identifier. -/
def resolveW : String → Option CachedDs := fun _ => some cds0W

/-- A loaded handle holding one buffered fresh point. -/
def c1ex : CachedDs :=
  { id := 1, ident := "host.cpu", incoming := [dpW], pointCount := 0,
    hasSpec := false, created := false, rrasCleared := false }

/-- A loaded handle for "host.mem" holding one buffered hop-count-1 point. -/
def cdsC3 : CachedDs :=
  { id := 7, ident := "host.mem", incoming := [dpH1], pointCount := 0,
    hasSpec := false, created := false, rrasCleared := false }

/-! ### C1 -/

/-- C1 (counterexample): for a loaded handle with one buffered point the
accumulated point count is positive after applying, a flush is performed,
but the flush call is made with blocking mode DISABLED (`false`), not
enabled as the claim states. -/
theorem C1_flush_blocking_counterexample :
    (directorProcessDataPoint c1ex).flushes =
      [{ ident := "host.cpu", blocking := false }] ∧
    0 < (directorProcessDataPoint c1ex).cds.pointCount := by
  decide

/-- C1 (amended): when, after `directorProcessDataPoint` applies a handle's
buffered points, the accumulated point count is positive, the flush of the
data source to persistence is performed with blocking mode DISABLED
(`flushDs(ds, false)`); every flush call this function makes is
non-blocking. -/
theorem C1_flush_nonblocking (cds : CachedDs)
    (h : 0 < (directorProcessDataPoint cds).cds.pointCount) :
    (directorProcessDataPoint cds).flushes =
      [{ ident := cds.ident, blocking := false }] ∧
    ∀ f : FlushCall, f ∈ (directorProcessDataPoint cds).flushes →
      f.blocking = false := by
  simp only [directorProcessDataPoint, CachedDs.processIncoming] at h ⊢
  constructor
  · simp [h]
  · intro f hf
    simp [h] at hf
    simp [hf]

/-- C1 (witness): the amended theorem applied at the concrete handle
`c1ex`, whose point count is positive after applying. -/
theorem C1_flush_nonblocking_witness :
    (directorProcessDataPoint c1ex).flushes =
      [{ ident := "host.cpu", blocking := false }] :=
  (C1_flush_nonblocking c1ex (by decide)).1

/-! ### C2 -/

/-- C2: `directorForwardDPToNode` places a point on the outbound path iff
its hop count is exactly 0 and the node is ready; a sent point has its hop
count incremented by exactly 1, so it leaves with hop count 1 (in
particular never more than 2); and a point with hop count ≥ 1 is never
sent. -/
theorem C2_forward_hop_invariant (dp : IncomingDP) (node : Node) :
    ((directorForwardDPToNode dp node).sent.isSome = true ↔
      (dp.hops = 0 ∧ node.ready = true)) ∧
    (∀ m : Msg, (directorForwardDPToNode dp node).sent = some m →
      m.dp.hops = dp.hops + 1 ∧ m.dp.hops = 1 ∧ m.dp.hops ≤ 2 ∧
      (directorForwardDPToNode dp node).dp.hops = 1) ∧
    (1 ≤ dp.hops →
      (directorForwardDPToNode dp node).sent = none ∧
      (directorForwardDPToNode dp node).dp = dp) := by
  by_cases h0 : dp.hops = 0
  · cases hr : node.ready
    · constructor
      · simp [directorForwardDPToNode, h0, hr]
      · constructor
        · intro m hm
          simp [directorForwardDPToNode, h0, hr] at hm
        · intro h1
          omega
    · constructor
      · simp [directorForwardDPToNode, h0, hr]
      · constructor
        · intro m hm
          simp [directorForwardDPToNode, h0, hr] at hm
          simp [directorForwardDPToNode, h0, hr, ← hm]
        · intro h1
          omega
  · constructor
    · simp [directorForwardDPToNode, h0]
    · constructor
      · intro m hm
        simp [directorForwardDPToNode, h0] at hm
      · intro _
        simp [directorForwardDPToNode, h0]

/-- C2 (witness): the invariant applied at a fresh point and a ready node;
the sent message carries hop count 1. -/
theorem C2_forward_hop_invariant_witness :
    ({ node := nodeReadyW,
       dp := { ident := "host.cpu", value := GoFloat.num 3, hops := 1 } } : Msg).dp.hops = 1 :=
  ((C2_forward_hop_invariant dpW nodeReadyW).2.1
    { node := nodeReadyW,
      dp := { ident := "host.cpu", value := GoFloat.num 3, hops := 1 } }
    (by decide)).2.1

/-! ### C6 -/

/-- C6: a NaN-valued point is counted in `datapoints.total` and nothing
else happens: the result is a constant independent of the cache resolver,
the cluster and the debug flag — no handle is touched or created, nothing
is buffered, no loader submission, no send, no flush, and no dropped /
accepted / forwarded counter is reported. -/
theorem C6_nan_dropped_silently (dp : IncomingDP)
    (getByIdentOrCreateEmpty : String → Option CachedDs)
    (clstr : Option Clusterer) (debug : Bool)
    (h : dp.value.isNaN = true) :
    directorProcessIncomingDP dp getByIdentOrCreateEmpty clstr debug =
      { stats := [("receiver.datapoints.total", 1)], loaderSends := [],
        sent := [], logs := [], flushes := [], cdsAfter := none } := by
  simp [directorProcessIncomingDP, h]

/-- C6 (witness): the theorem applied at a concrete NaN point. -/
theorem C6_nan_dropped_silently_witness :
    directorProcessIncomingDP { ident := "x", value := GoFloat.nan, hops := 0 }
      resolveW (some { nodesForDistDatum := [nodeReadyW], localNode := localW }) true =
      { stats := [("receiver.datapoints.total", 1)], loaderSends := [],
        sent := [], logs := [], flushes := [], cdsAfter := none } :=
  C6_nan_dropped_silently _ _ _ _ (by decide)

/-! ### C7 -/

/-- C7: a point whose identifier matches no configured spec (the cache
resolve returns none) reports exactly `datapoints.total` 1 and
`datapoints.dropped` 1 — no accepted or forwarded counter — and is neither
buffered, sent to the loader, forwarded, nor flushed. -/
theorem C7_unroutable_dropped (dp : IncomingDP)
    (getByIdentOrCreateEmpty : String → Option CachedDs)
    (clstr : Option Clusterer) (debug : Bool)
    (h1 : dp.value.isNaN = false)
    (h2 : getByIdentOrCreateEmpty dp.ident = none) :
    directorProcessIncomingDP dp getByIdentOrCreateEmpty clstr debug =
      { stats := [("receiver.datapoints.total", 1), ("receiver.datapoints.dropped", 1)],
        loaderSends := [], sent := [],
        logs := if debug then ["director: No spec matched ident, ignoring data point"] else [],
        flushes := [], cdsAfter := none } := by
  simp [directorProcessIncomingDP, h1, h2]

/-- C7 (witness): the theorem applied at a concrete unroutable point. -/
theorem C7_unroutable_dropped_witness :
    directorProcessIncomingDP dpW resolveNone none false =
      { stats := [("receiver.datapoints.total", 1), ("receiver.datapoints.dropped", 1)],
        loaderSends := [], sent := [], logs := [], flushes := [],
        cdsAfter := none } := by
  have h := C7_unroutable_dropped dpW resolveNone none false (by decide) (by decide)
  simpa using h

/-! ### C10 -/

/-- C10: an item dequeued from the processing queue that is neither a point
nor a cached handle closes the loader channel: the nil shutdown sentinel
does so, and an unexpected-type item is logged and then handled identically
to the shutdown signal (same effects apart from the extra log line), not
dropped. -/
theorem C10_unknown_item_closes_loader (t : String)
    (getByIdentOrCreateEmpty : String → Option CachedDs)
    (clstr : Option Clusterer) (debug : Bool) :
    (directorStep DpChItem.nilItem getByIdentOrCreateEmpty clstr debug).closedLoaderCh = true ∧
    (directorStep (DpChItem.unknownItem t) getByIdentOrCreateEmpty clstr debug).closedLoaderCh = true ∧
    directorStep (DpChItem.unknownItem t) getByIdentOrCreateEmpty clstr debug =
      { directorStep DpChItem.nilItem getByIdentOrCreateEmpty clstr debug with
        logs := ("director(): unknown type: " ++ t) ::
          (directorStep DpChItem.nilItem getByIdentOrCreateEmpty clstr debug).logs } := by
  refine ⟨rfl, rfl, ?_⟩
  simp [directorStep]

/-! ### C5 -/

/-- The delivered points of the receive worker are exactly the decodable
points whose hop count is within the limit, in order. -/
theorem directorincomingDPMessages_fst (msgs : List RcvMsg) :
    (directorincomingDPMessages msgs).1 =
      msgs.filterMap (fun m =>
        match m with
        | RcvMsg.decodeErr => none
        | RcvMsg.ok dp => if maxHops < dp.hops then none else some dp) := by
  induction msgs with
  | nil => rfl
  | cons m rest ih =>
    cases m with
    | decodeErr => simp [directorincomingDPMessages, ih]
    | ok dp =>
      by_cases h : maxHops < dp.hops
      · simp [directorincomingDPMessages, h, ih]
      · simp [directorincomingDPMessages, h, ih]

/-- C5: a received message's point is delivered to the director channel iff
it decodes and its hop count does not exceed 2 (`maxHops`); a message that
fails to decode, or whose hop count exceeds 2, contributes one log line and
no delivery, and the worker continues with the rest of the messages. -/
theorem C5_rcv_filter (msgs : List RcvMsg) :
    (∀ dp : IncomingDP,
      dp ∈ (directorincomingDPMessages msgs).1 ↔
        (RcvMsg.ok dp ∈ msgs ∧ dp.hops ≤ maxHops)) ∧
    (∀ rest : List RcvMsg,
      (directorincomingDPMessages (RcvMsg.decodeErr :: rest)).1 =
        (directorincomingDPMessages rest).1 ∧
      (directorincomingDPMessages (RcvMsg.decodeErr :: rest)).2.length =
        (directorincomingDPMessages rest).2.length + 1) ∧
    (∀ (dp : IncomingDP) (rest : List RcvMsg), maxHops < dp.hops →
      (directorincomingDPMessages (RcvMsg.ok dp :: rest)).1 =
        (directorincomingDPMessages rest).1 ∧
      (directorincomingDPMessages (RcvMsg.ok dp :: rest)).2.length =
        (directorincomingDPMessages rest).2.length + 1) := by
  refine ⟨?_, ?_, ?_⟩
  · intro dp
    rw [directorincomingDPMessages_fst]
    simp only [List.mem_filterMap]
    constructor
    · rintro ⟨m, hm, he⟩
      cases m with
      | decodeErr => simp at he
      | ok dp0 =>
        by_cases h : maxHops < dp0.hops
        · simp [h] at he
        · simp [h] at he
          subst he
          exact ⟨hm, le_of_not_lt h⟩
    · rintro ⟨hmem, hle⟩
      exact ⟨RcvMsg.ok dp, hmem, by simp [not_lt.mpr hle]⟩
  · intro rest
    simp [directorincomingDPMessages]
  · intro dp rest h
    simp [directorincomingDPMessages, h]

/-- C5 (witness): the theorem applied at a point whose hop count 3 exceeds
the limit: it is dropped and processing is unchanged. -/
theorem C5_rcv_filter_witness :
    (directorincomingDPMessages
      [RcvMsg.ok { ident := "a", value := GoFloat.num 1, hops := 3 }]).1 =
      (directorincomingDPMessages []).1 :=
  ((C5_rcv_filter []).2.2 { ident := "a", value := GoFloat.num 1, hops := 3 } []
    (by decide)).1

/-! ### C8 -/

/-- The forwarding-error log line of the remote branch. -/
theorem forwardLoop_logs_eq (node : Node) (l : List IncomingDP) :
    ∀ s ∈ (forwardLoop node l).2.1,
      s = "director: Error forwarding a data point: directorForwardDPToNode: Node is not ready" := by
  induction l with
  | nil => intro s hs; simp [forwardLoop] at hs
  | cons dp rest ih =>
    intro s hs
    by_cases h0 : dp.hops = 0
    · cases hr : node.ready
      · simp [forwardLoop, directorForwardDPToNode, h0, hr] at hs
        rcases hs with hs | hs
        · rw [hs]
        · exact ih s hs
      · simp [forwardLoop, directorForwardDPToNode, h0, hr] at hs
        exact ih s hs
    · simp [forwardLoop, directorForwardDPToNode, h0] at hs
      exact ih s hs

/-- C8: when `directorProcessOrForward` handles a remote owner node, the
handle ends with an empty pending buffer regardless of per-point forward
success, its RRAs forcibly cleared (point count zeroed), and the clearing
warning is logged exactly when the accumulated point count was positive;
the same holds for the remote branch of the node loop from any
intermediate state. -/
theorem C8_remote_owner_clears (cds : CachedDs) (localN node : Node)
    (h : node.name ≠ localN.name) :
    ((directorProcessOrForward cds
        (some { nodesForDistDatum := [node], localNode := localN })).cds.incoming = [] ∧
     (directorProcessOrForward cds
        (some { nodesForDistDatum := [node], localNode := localN })).cds.rrasCleared = true ∧
     (directorProcessOrForward cds
        (some { nodesForDistDatum := [node], localNode := localN })).cds.pointCount = 0) ∧
    (0 < cds.pointCount ↔ clearingWarning ∈
      (directorProcessOrForward cds
        (some { nodesForDistDatum := [node], localNode := localN })).logs) ∧
    (∀ st : POFState,
      (pofStep localN st node).cds.incoming = [] ∧
      (pofStep localN st node).cds.rrasCleared = true ∧
      (pofStep localN st node).cds.pointCount = 0) := by
  have hlogs : (directorProcessOrForward cds
      (some { nodesForDistDatum := [node], localNode := localN })).logs =
      (forwardLoop node cds.incoming).2.1 ++
        (if 0 < cds.pointCount then [clearingWarning] else []) := by
    simp [directorProcessOrForward, pofStep, h]
  refine ⟨?_, ?_, ?_⟩
  · simp [directorProcessOrForward, pofStep, h, CachedDs.clearRRAs]
  · rw [hlogs]
    constructor
    · intro hpc
      simp [hpc]
    · intro hmem
      rcases List.mem_append.1 hmem with hm | hm
      · have := forwardLoop_logs_eq node cds.incoming clearingWarning hm
        exact absurd this (by decide)
      · by_cases hpc : 0 < cds.pointCount
        · exact hpc
        · simp [hpc] at hm
  · intro st
    simp [pofStep, h, CachedDs.clearRRAs]

/-- C8 (witness): the theorem applied at a concrete handle with a remote
owner node. -/
theorem C8_remote_owner_clears_witness :
    (directorProcessOrForward cdsC3
      (some { nodesForDistDatum := [nodeNR], localNode := localW })).cds.incoming = [] :=
  ((C8_remote_owner_clears cdsC3 localW nodeNR (by decide)).1).1

/-! ### C3 -/

/-- C3 (counterexample): with a remote not-ready owner node and a buffered
point whose hop count is already 1, the forward attempt returns NO error,
and the forwarded count returned for that node is 1, not 0 — refuting the
claim that every point's forward attempt fails with an error and that the
forwarded count is always 0. -/
theorem C3_forward_notready_counterexample :
    (directorForwardDPToNode dpH1 nodeNR).err = none ∧
    (directorProcessOrForward cdsC3
      (some { nodesForDistDatum := [nodeNR], localNode := localW })).forwarded = 1 := by
  decide

/-- Remote not-ready forwarding over a buffer of fresh points: no message
is sent, one error log per point, and nothing counted as forwarded. -/
theorem forwardLoop_notready (node : Node) (hready : node.ready = false)
    (l : List IncomingDP) (h : ∀ dp ∈ l, dp.hops = 0) :
    forwardLoop node l =
      ([], List.replicate l.length
        "director: Error forwarding a data point: directorForwardDPToNode: Node is not ready",
       0) := by
  induction l with
  | nil => rfl
  | cons dp rest ih =>
    have h0 := h dp (List.mem_cons_self dp rest)
    have hrest : ∀ d ∈ rest, d.hops = 0 := fun d hd => h d (List.mem_cons_of_mem dp hd)
    simp [forwardLoop, directorForwardDPToNode, h0, hready, ih hrest,
          List.replicate_succ]

/-- C3 (amended): when the owner node is remote and not ready, the forward
attempt fails (`directorForwardDPToNode` returns the not-ready error and
sends nothing) for every buffered point whose hop count is 0; each failure
is logged (one log line per such point) and the point is dropped, and if
every buffered point has hop count 0 the forwarded count returned for that
node is 0, nothing is sent, and nothing is accepted.  (A buffered point
with hop count ≥ 1 is skipped without error and is counted as forwarded
even though nothing is sent — see the counterexample.) -/
theorem C3_forward_notready_all_fail (cds : CachedDs) (localN node : Node)
    (hready : node.ready = false) (hname : node.name ≠ localN.name)
    (hhops : ∀ dp ∈ cds.incoming, dp.hops = 0) :
    (∀ dp ∈ cds.incoming,
      (directorForwardDPToNode dp node).err =
        some "directorForwardDPToNode: Node is not ready" ∧
      (directorForwardDPToNode dp node).sent = none) ∧
    (forwardLoop node cds.incoming).2.1.length = cds.incoming.length ∧
    (directorProcessOrForward cds
      (some { nodesForDistDatum := [node], localNode := localN })).forwarded = 0 ∧
    (directorProcessOrForward cds
      (some { nodesForDistDatum := [node], localNode := localN })).accepted = 0 ∧
    (directorProcessOrForward cds
      (some { nodesForDistDatum := [node], localNode := localN })).sent = [] := by
  have hfl := forwardLoop_notready node hready cds.incoming hhops
  refine ⟨?_, ?_, ?_, ?_, ?_⟩
  · intro dp hdp
    simp [directorForwardDPToNode, hhops dp hdp, hready]
  · rw [hfl]
    simp
  · simp [directorProcessOrForward, pofStep, hname, hfl]
  · simp [directorProcessOrForward, pofStep, hname]
  · simp [directorProcessOrForward, pofStep, hname, hfl]

/-- A loaded handle buffering two fresh points for "host.mem". -/
def cdsC3W : CachedDs :=
  { id := 7, ident := "host.mem",
    incoming := [{ ident := "host.mem", value := GoFloat.num 1, hops := 0 },
                 { ident := "host.mem", value := GoFloat.num 2, hops := 0 }],
    pointCount := 0, hasSpec := false, created := false, rrasCleared := false }

/-- C3 (witness): the amended theorem applied at a buffer of two fresh
points and a not-ready remote owner. -/
theorem C3_forward_notready_all_fail_witness :
    (directorProcessOrForward cdsC3W
      (some { nodesForDistDatum := [nodeNR], localNode := localW })).forwarded = 0 :=
  (C3_forward_notready_all_fail cdsC3W localW nodeNR (by decide) (by decide)
    (by decide)).2.2.1

/-! ### C4 -/

/-- Invariant of the node loop of `directorProcessOrForward`: at most one
of `accepted` and `forwarded` is positive, and once one of them is positive
the pending buffer has been consumed. -/
def pofInv (st : POFState) : Prop :=
  (st.accepted = 0 ∨ st.forwarded = 0) ∧
  ((0 < st.accepted ∨ 0 < st.forwarded) → st.cds.incoming = [])

/-- Each iteration of the node loop preserves `pofInv`. -/
theorem pofStep_inv (localN node : Node) (st : POFState) (h : pofInv st) :
    pofInv (pofStep localN st node) := by
  rcases h with ⟨hdisj, hbuf⟩
  by_cases hn : node.name = localN.name
  · constructor
    · by_cases hl : st.cds.incoming = []
      · left
        simp [pofStep, hn, directorProcessDataPoint, CachedDs.processIncoming, hl]
      · right
        have hz : ¬(0 < st.accepted ∨ 0 < st.forwarded) := fun hc => hl (hbuf hc)
        push_neg at hz
        simp [pofStep, hn]
        omega
    · intro _
      simp [pofStep, hn, directorProcessDataPoint, CachedDs.processIncoming]
  · constructor
    · by_cases hl : st.cds.incoming = []
      · have hk : (forwardLoop node st.cds.incoming).2.2 = 0 := by
          rw [hl]
          rfl
        rcases hdisj with ha | hf
        · left
          simpa [pofStep, hn] using ha
        · right
          simp [pofStep, hn, hk, hf]
      · have hz : ¬(0 < st.accepted ∨ 0 < st.forwarded) := fun hc => hl (hbuf hc)
        push_neg at hz
        left
        simp [pofStep, hn]
        omega
    · intro _
      simp [pofStep, hn, CachedDs.clearRRAs]

/-- The node loop preserves `pofInv` from any starting state. -/
theorem pof_foldl_inv (localN : Node) (nodes : List Node) (st : POFState)
    (h : pofInv st) : pofInv (List.foldl (pofStep localN) st nodes) := by
  induction nodes generalizing st with
  | nil => exact h
  | cons n ns ih => exact ih _ (pofStep_inv localN n st h)

/-- In a single local-or-forward decision at most one of `accepted` and
`forwarded` is positive. -/
theorem pof_exclusive (cds : CachedDs) (clstr : Option Clusterer) :
    (directorProcessOrForward cds clstr).accepted = 0 ∨
    (directorProcessOrForward cds clstr).forwarded = 0 := by
  cases clstr with
  | none => exact Or.inr rfl
  | some c =>
    have hinit : pofInv
        { accepted := 0, forwarded := 0, dest := "", cds := cds,
          sent := [], logs := [], flushes := [] } := by
      refine ⟨Or.inl rfl, ?_⟩
      intro hc
      rcases hc with hc | hc <;> exact absurd hc (lt_irrefl 0)
    exact (pof_foldl_inv c.localNode c.nodesForDistDatum _ hinit).1

/-- C4: after every local-or-forward decision (both the decision made on a
handle dequeued from the processing queue and the one made inside
`directorProcessIncomingDP`), whenever the decision returns accepted > 0
the `datapoints.accepted` counter is reported with that amount, and
whenever it returns forwarded > 0 the `datapoints.forwarded` and
`forwarded_to.<destination>` counters are reported with that amount;
`pof_exclusive` shows the two cases never coincide in one decision. -/
theorem C4_stats_accounting :
    (∀ (cds : CachedDs) (resolve : String → Option CachedDs)
       (clstr : Option Clusterer) (debug : Bool),
      (0 < (directorProcessOrForward cds clstr).accepted →
        ("receiver.datapoints.accepted",
          (directorProcessOrForward cds clstr).accepted) ∈
          (directorStep (DpChItem.cdsItem cds) resolve clstr debug).stats) ∧
      (0 < (directorProcessOrForward cds clstr).forwarded →
        ("receiver.datapoints.forwarded",
          (directorProcessOrForward cds clstr).forwarded) ∈
          (directorStep (DpChItem.cdsItem cds) resolve clstr debug).stats ∧
        ("receiver.forwarded_to." ++ (directorProcessOrForward cds clstr).dest,
          (directorProcessOrForward cds clstr).forwarded) ∈
          (directorStep (DpChItem.cdsItem cds) resolve clstr debug).stats)) ∧
    (∀ (dp : IncomingDP) (resolve : String → Option CachedDs)
       (clstr : Option Clusterer) (debug : Bool) (cds0 : CachedDs),
      dp.value.isNaN = false → resolve dp.ident = some cds0 →
      (cds0.appendIncoming dp).id ≠ 0 →
      (0 < (directorProcessOrForward (cds0.appendIncoming dp) clstr).accepted →
        ("receiver.datapoints.accepted",
          (directorProcessOrForward (cds0.appendIncoming dp) clstr).accepted) ∈
          (directorProcessIncomingDP dp resolve clstr debug).stats) ∧
      (0 < (directorProcessOrForward (cds0.appendIncoming dp) clstr).forwarded →
        ("receiver.datapoints.forwarded",
          (directorProcessOrForward (cds0.appendIncoming dp) clstr).forwarded) ∈
          (directorProcessIncomingDP dp resolve clstr debug).stats ∧
        ("receiver.forwarded_to." ++
            (directorProcessOrForward (cds0.appendIncoming dp) clstr).dest,
          (directorProcessOrForward (cds0.appendIncoming dp) clstr).forwarded) ∈
          (directorProcessIncomingDP dp resolve clstr debug).stats)) := by
  constructor
  · intro cds resolve clstr debug
    constructor
    · intro ha
      have hf : (directorProcessOrForward cds clstr).forwarded = 0 := by
        rcases pof_exclusive cds clstr with h | h
        · omega
        · exact h
      simp [directorStep, hf, ha]
    · intro hf
      simp [directorStep, hf]
  · intro dp resolve clstr debug cds0 h1 h2 h3
    constructor
    · intro ha
      have hf : (directorProcessOrForward (cds0.appendIncoming dp) clstr).forwarded = 0 := by
        rcases pof_exclusive (cds0.appendIncoming dp) clstr with h | h
        · omega
        · exact h
      simp [directorProcessIncomingDP, h1, h2, h3, hf, ha]
    · intro hf
      simp [directorProcessIncomingDP, h1, h2, h3, hf]

/-- C4 (witness): the theorem applied in the no-cluster case, where a
loaded handle accepts one point locally. -/
theorem C4_stats_accounting_witness :
    ("receiver.datapoints.accepted",
      (directorProcessOrForward (cds0W.appendIncoming dpW) none).accepted) ∈
      (directorProcessIncomingDP dpW resolveW none false).stats :=
  (C4_stats_accounting.2 dpW resolveW none false cds0W (by decide) rfl
    (by decide)).1 (by decide)

/-! ### C9 -/

/-- C9: when the loader's materialization call returns a storage error for
a handle, the loader logs the error and continues: the handle is not sent
downstream, no created event is recorded, and processing of the remaining
items (in particular a later retry of the same identifier) is exactly as if
the failed item had not been there, apart from the log line. -/
theorem C9_loader_storage_error (fetch : CachedDs → FetchResult)
    (c : CachedDs) (e : String) (rest : List CachedDs)
    (h1 : c.hasSpec = true) (h2 : fetch c = FetchResult.err e) :
    loaderRun fetch (c :: rest) =
      { loaderRun fetch rest with
        logs := ("loader: database error: " ++ e) :: (loaderRun fetch rest).logs } ∧
    (loaderRun fetch (c :: rest)).outputs = (loaderRun fetch rest).outputs ∧
    (loaderRun fetch (c :: rest)).createdEvents =
      (loaderRun fetch rest).createdEvents ∧
    (loaderRun fetch (c :: rest)).closedDpCh = (loaderRun fetch rest).closedDpCh := by
  have key : loaderRun fetch (c :: rest) =
      { loaderRun fetch rest with
        logs := ("loader: database error: " ++ e) :: (loaderRun fetch rest).logs } := by
    simp [loaderRun, h1, h2]
  refine ⟨key, ?_, ?_, ?_⟩ <;> rw [key]

/-- A placeholder handle (id 0) still carrying its spec. -/
def cPlaceholder : CachedDs :=
  { id := 0, ident := "host.disk", incoming := [], pointCount := 0,
    hasSpec := true, created := false, rrasCleared := false }

/-- A persistence model that fails with a storage error exactly on
not-yet-loaded handles. -/
def fetchW : CachedDs → FetchResult := fun c =>
  if c.id = 0 then FetchResult.err "disk failure" else FetchResult.ok c

/-- C9 (witness): the theorem applied at a concrete failing fetch followed
by another item, which is still processed. -/
theorem C9_loader_storage_error_witness :
    loaderRun fetchW (cPlaceholder :: [cds0W]) =
      { loaderRun fetchW [cds0W] with
        logs := ("loader: database error: " ++ "disk failure") ::
          (loaderRun fetchW [cds0W]).logs } :=
  (C9_loader_storage_error fetchW cPlaceholder "disk failure" [cds0W]
    (by decide) (by decide)).1

end TgresReceiver
